import Mathlib

/-!
Verification of the `mictils` utility crate (src/lib.rs).

The crate provides four capabilities attached to arbitrary values:
  * `HashCode::hashcode` — a 64-bit structural digest via `std::hash::DefaultHasher`
    (SipHash-1-3 with both keys zero);
  * `Bind::bind` — take ownership, apply a closure, return its result;
  * `Hold::hold_ref` / `Hold::hold` — apply a closure to a (mutable) reference,
    return the (possibly mutated) value;
  * `SymlinkExists::exists_symlink` — lstat-style existence probe that does not
    follow a terminal symlink.

Each Rust item is embedded shallowly below: closures that may have side effects
are modelled as explicit state-passing functions, fallible closures return
`Except`, the filesystem is an abstract record of the two metadata queries the
code performs, and `DefaultHasher` is implemented concretely over `Nat` with
explicit reduction modulo `2 ^ 64`.
-/

namespace Mictils

/-! ## SipHash-1-3 (std::hash::DefaultHasher), over Nat mod 2^64 -/

/-- The 64-bit modulus. -/
def M64 : Nat := 2 ^ 64

/-- Wrapping 64-bit addition (`u64::wrapping_add`). -/
def wadd (a b : Nat) : Nat := (a + b) % M64

/-- Left rotation of a 64-bit word (`u64::rotate_left`). -/
def rotl (x r : Nat) : Nat := ((x <<< r) ||| (x >>> (64 - r))) % M64

/-- The four 64-bit words of the SipHash internal state. -/
structure SipState where
  v0 : Nat
  v1 : Nat
  v2 : Nat
  v3 : Nat

/-- One SipHash compression round, as in the standard library sip.rs. -/
def sipround (s : SipState) : SipState :=
  let v0 := wadd s.v0 s.v1
  let v1 := rotl s.v1 13
  let v1 := Nat.xor v1 v0
  let v0 := rotl v0 32
  let v2 := wadd s.v2 s.v3
  let v3 := rotl s.v3 16
  let v3 := Nat.xor v3 v2
  let v0 := wadd v0 v3
  let v3 := rotl v3 21
  let v3 := Nat.xor v3 v0
  let v2 := wadd v2 v1
  let v1 := rotl v1 17
  let v1 := Nat.xor v1 v2
  let v2 := rotl v2 32
  ⟨v0, v1, v2, v3⟩

/-- Absorb one 8-byte message word `m`: `v3 ^= m; c_rounds (one round); v0 ^= m`. -/
def sipBlock (s : SipState) (m : Nat) : SipState :=
  let s := { s with v3 := Nat.xor s.v3 m }
  let s := sipround s
  { s with v0 := Nat.xor s.v0 m }

/-- Little-endian value of a byte list. -/
def leWord : List Nat → Nat
  | [] => 0
  | b :: bs => b + 256 * leWord bs

/-- Consume full 8-byte chunks of the input, returning the state and the tail
(fewer than 8 bytes) that remains. -/
def sipBytes : SipState → List Nat → SipState × List Nat
  | s, b0 :: b1 :: b2 :: b3 :: b4 :: b5 :: b6 :: b7 :: rest =>
      sipBytes (sipBlock s (leWord [b0, b1, b2, b3, b4, b5, b6, b7])) rest
  | s, tail => (s, tail)

/-- SipHash finalization: fold in the length-tagged tail word, xor `0xff` into
`v2`, run the three `d_rounds`, and xor the state words together. -/
def sipFinish (s : SipState) (len : Nat) (tail : List Nat) : Nat :=
  let b := Nat.lor (((len % 256) <<< 56) % M64) (leWord tail)
  let s := sipBlock s b
  let s := { s with v2 := Nat.xor s.v2 0xff }
  let s := sipround (sipround (sipround s))
  Nat.xor (Nat.xor s.v0 s.v1) (Nat.xor s.v2 s.v3)

/-- Initial state of `DefaultHasher::new()`: SipHasher13 keyed with `k0 = k1 = 0`. -/
def sipInit : SipState :=
  ⟨0x736f6d6570736575, 0x646f72616e646f6d, 0x6c7967656e657261, 0x7465646279746573⟩

/-- Digest of a value whose `Hash` implementation writes the byte stream
`bytes` to the hasher: build a fresh `DefaultHasher`, feed the bytes, and
call `finish`. -/
def hashcodeBytes (bytes : List Nat) : Nat :=
  let (s, tail) := sipBytes sipInit bytes
  sipFinish s bytes.length tail

/-- Embeds `HashCode::hashcode` on a value `v` of type `α`, where
`write : α → List Nat` gives the byte stream that the `Hash` implementation
of `α` writes for `v` (the structural content of the value). -/
def hashcode (write : α → List Nat) (v : α) : Nat :=
  hashcodeBytes (write v)

/-- Little-endian byte encoding, `n` bytes wide (`u64::to_le_bytes` etc.). -/
def leBytes : Nat → Nat → List Nat
  | 0, _ => []
  | n + 1, v => v % 256 :: leBytes n (v / 256)

/-- UTF-8 encoding of one code point. -/
def utf8Encode (c : Nat) : List Nat :=
  if c < 0x80 then [c]
  else if c < 0x800 then
    [0xC0 ||| (c >>> 6), 0x80 ||| (c &&& 0x3F)]
  else if c < 0x10000 then
    [0xE0 ||| (c >>> 12), 0x80 ||| ((c >>> 6) &&& 0x3F), 0x80 ||| (c &&& 0x3F)]
  else
    [0xF0 ||| (c >>> 18), 0x80 ||| ((c >>> 12) &&& 0x3F),
     0x80 ||| ((c >>> 6) &&& 0x3F), 0x80 ||| (c &&& 0x3F)]

/-- The byte stream written when hashing a `str`: the UTF-8 bytes followed by
a `0xff` terminator. -/
def strWrite (s : String) : List Nat :=
  (s.data.map fun c => utf8Encode c.toNat).flatten ++ [0xff]

/-- The byte stream written when hashing a `u64` or `usize`: eight
little-endian bytes. -/
def u64Write (v : Nat) : List Nat := leBytes 8 (v % M64)

/-! ## Bind (src/lib.rs lines 95-100): `fn bind(self, f) { f(self) }` -/

/-- Embeds `Bind::bind`: consume `self`, apply the closure, return its result. -/
def bind (v : α) (f : α → β) : β := f v

/-- Instrument a state-passing closure so that the second state component
counts how many times it is invoked. -/
def countingCalls (f : α → σ → β × σ) : α → σ × Nat → β × (σ × Nat) :=
  fun x p => ((f x p.1).1, ((f x p.1).2, p.2 + 1))

/-! ## Hold (src/lib.rs lines 118-140) -/

/-- Embeds `Hold::hold_ref`, whose body runs the closure on a shared reference
and then returns `self`: the closure observes the value (its unit result is
dropped), then the value itself is returned. -/
def hold_ref (v : α) (f : α → Unit) : α :=
  let _ := f v
  v

/-- Embeds `Hold::hold`, whose body runs the closure on a mutable reference and
then returns `self`: the in-place mutation performed by the closure, read as a
function `α → α`, is applied to the value, which is then returned. -/
def hold (v : α) (f : α → α) : α :=
  let v := f v
  v

/-- Variant of `hold_ref` with an effectful closure: the closure may update an
external state `σ` but only reads the value. Returns the value together with
the final state. -/
def hold_refEff (v : α) (f : α → σ → σ) (s : σ) : α × σ :=
  let s := f v s
  (v, s)

/-- Variant of `hold` with an effectful closure: the closure may update an
external state and mutates the value in place. -/
def holdEff (v : α) (f : α → σ → α × σ) (s : σ) : α × σ :=
  let (v, s) := f v s
  (v, s)

/-- Variant of `hold_ref` with a fallible closure: if the closure fails, that
failure propagates and the value is not returned. -/
def hold_refE (v : α) (f : α → Except ε Unit) : Except ε α :=
  match f v with
  | Except.error e => Except.error e
  | Except.ok _ => Except.ok v

/-- Variant of `hold` with a fallible mutator: if the mutation fails, the
failure propagates; otherwise the mutated value is returned. -/
def holdE (v : α) (f : α → Except ε α) : Except ε α :=
  match f v with
  | Except.error e => Except.error e
  | Except.ok v => Except.ok v

/-! ## SymlinkExists (src/lib.rs lines 154-162) -/

/-- A file type as reported by `std::fs::Metadata`. -/
inductive FileType
  | file
  | dir
  | symlink
deriving DecidableEq

/-- The slice of `std::fs::Metadata` the code inspects. -/
structure Metadata where
  fileType : FileType
deriving DecidableEq

/-- Embeds `Metadata::is_symlink`. -/
def Metadata.is_symlink (m : Metadata) : Bool :=
  match m.fileType with
  | FileType.symlink => true
  | _ => false

/-- The failure modes of a filesystem metadata query (`std::io::Error` kinds
relevant here). -/
inductive FsError
  | notFound
  | permissionDenied
  | ioError
deriving DecidableEq

/-- Embeds `Result::is_ok_and`: `false` on `Err`, apply the predicate on `Ok`. -/
def isOkAnd (r : Except ε α) (f : α → Bool) : Bool :=
  match r with
  | Except.ok a => f a
  | Except.error _ => false

/-- The host filesystem as seen through the two queries the code performs on a
path of type `π`: `Path::symlink_metadata` (lstat-style, does not follow a
terminal symlink) and `Path::exists` (stat-style, follows symlinks). -/
structure Filesystem (π : Type) where
  symlink_metadata : π → Except FsError Metadata
  pathExists : π → Bool

/-- Embeds `SymlinkExists::exists_symlink`, whose body is
`self.symlink_metadata().is_ok_and(|m| m.is_symlink() || self.exists())`. -/
def exists_symlink (fs : Filesystem π) (p : π) : Bool :=
  isOkAnd (fs.symlink_metadata p) (fun m => m.is_symlink || fs.pathExists p)

/-- A concrete filesystem exercising every scenario of the check: path 0 does
not exist, path 1 is a regular file, path 2 is a symlink to an existing
target, path 3 is a dangling symlink, path 4 is a directory, and path 5 is a
non-symlink entry whose follow-up existence query fails. -/
def demoFs : Filesystem Nat where
  symlink_metadata p :=
    match p with
    | 0 => Except.error FsError.notFound
    | 1 => Except.ok ⟨FileType.file⟩
    | 2 => Except.ok ⟨FileType.symlink⟩
    | 3 => Except.ok ⟨FileType.symlink⟩
    | 4 => Except.ok ⟨FileType.dir⟩
    | _ => Except.ok ⟨FileType.file⟩
  pathExists p :=
    match p with
    | 0 => false
    | 3 => false
    | 5 => false
    | _ => true

/-! ## Theorems -/

/-- Sanity check for the hash embedding: the digest of `"HashCode"` equals the
constant asserted in the doc test of `HashCode::hashcode` in src/lib.rs. -/
theorem hashcode_doc_example :
    hashcode strWrite (String.mk [.mk 72 (by decide), .mk 97 (by decide),
      .mk 115 (by decide), .mk 104 (by decide), .mk 67 (by decide),
      .mk 111 (by decide), .mk 100 (by decide), .mk 101 (by decide)]) =
      17255704455115175831 := by decide

/-- C1: for every path, `exists_symlink(path)` returns `true` if and only if
the lstat-style metadata query on the path succeeds and (that metadata reports
the path is a symlink, or the symlink-following existence check on the same
path also succeeds). -/
theorem exists_symlink_iff (fs : Filesystem π) (p : π) :
    exists_symlink fs p = true ↔
      ∃ m, fs.symlink_metadata p = Except.ok m ∧
        (m.is_symlink = true ∨ fs.pathExists p = true) := by
  unfold exists_symlink isOkAnd
  cases h : fs.symlink_metadata p with
  | ok m =>
      simp only [Bool.or_eq_true]
      constructor
      · intro hm; exact ⟨m, rfl, hm⟩
      · rintro ⟨m', hm', hor⟩
        cases hm'
        exact hor
  | error e =>
      simp

/-- C2: for every value `v` and function `f`, `bind(v, f)` returns exactly
`f(v)`; moreover, reading an effectful closure as a state-passing function and
instrumenting it with a call counter, one call to `bind` increments the
counter by exactly one — `f` is invoked exactly once on `v`. -/
theorem bind_applies_f_once :
    (∀ (α β : Type) (v : α) (f : α → β), bind v f = f v) ∧
    (∀ (α β σ : Type) (v : α) (g : α → σ → β × σ) (s : σ) (n : Nat),
      (bind v (countingCalls g) (s, n)).2.2 = n + 1) :=
  ⟨fun _ _ _ _ => rfl, fun _ _ _ _ _ _ _ => rfl⟩

/-- C3: for every value `v` and mutator `f`, `hold(v, f)` applies the in-place
transformation of `f` to `v` exactly once and returns the mutated value; with
an effectful mutator the external state is threaded through a single call,
and a call counter records exactly one invocation. -/
theorem hold_mutates_once :
    (∀ (α : Type) (v : α) (f : α → α), hold v f = f v) ∧
    (∀ (α σ : Type) (v : α) (g : α → σ → α × σ) (s : σ),
      holdEff v g s = g v s) ∧
    (∀ (α σ : Type) (v : α) (g : α → σ → α × σ) (s : σ) (n : Nat),
      (holdEff v (countingCalls g) (s, n)).2.2 = n + 1) :=
  ⟨fun _ _ _ => rfl, fun _ _ _ _ _ => rfl, fun _ _ _ _ _ _ => rfl⟩

/-- C4: for every value `v` and observer `f`, `hold_ref(v, f)` returns `v`
itself, unchanged by the combinator; the observer is invoked exactly once,
on `v`, before the value is returned: its effect on the external state is
`g v` applied once, and a call counter records exactly one invocation. -/
theorem hold_ref_returns_value_once :
    (∀ (α : Type) (v : α) (f : α → Unit), hold_ref v f = v) ∧
    (∀ (α σ : Type) (v : α) (g : α → σ → σ) (s : σ),
      hold_refEff v g s = (v, g v s)) ∧
    (∀ (α σ : Type) (v : α) (g : α → σ → σ) (s : σ) (n : Nat),
      (hold_refEff v (fun x q => (g x q.1, q.2 + 1)) (s, n)).2.2 = n + 1) :=
  ⟨fun _ _ _ => rfl, fun _ _ _ _ _ => rfl, fun _ _ _ _ _ _ => rfl⟩

/-- C5: `hashcode` is deterministic — two structurally equal values yield the
same 64-bit digest within one run, and hashing the same unchanged value twice
yields the same result. -/
theorem hashcode_deterministic (w : α → List Nat) (v v' : α) (h : v = v') :
    hashcode w v = hashcode w v' ∧ hashcode w v = hashcode w v := by
  subst h
  exact ⟨rfl, rfl⟩

/-- Witness for C5: two separately built but structurally equal strings have
equal digests. -/
theorem hashcode_deterministic_witness :
    ("fo" ++ "o" : String) = "foo" ∧
      (hashcode strWrite ("fo" ++ "o") = hashcode strWrite "foo" ∧
       hashcode strWrite ("fo" ++ "o") = hashcode strWrite ("fo" ++ "o")) :=
  ⟨by decide, hashcode_deterministic strWrite ("fo" ++ "o") "foo" (by decide)⟩

/-- C6: `exists_symlink` returns `false` when nothing exists at the path
(the lstat-style query fails with not-found), and `true` for a regular file,
a symlink with existing target, a dangling symlink, and a directory. -/
theorem exists_symlink_scenarios (fs : Filesystem π) (p : π) :
    (fs.symlink_metadata p = Except.error FsError.notFound →
      exists_symlink fs p = false) ∧
    (fs.symlink_metadata p = Except.ok ⟨FileType.file⟩ →
      fs.pathExists p = true → exists_symlink fs p = true) ∧
    (fs.symlink_metadata p = Except.ok ⟨FileType.symlink⟩ →
      fs.pathExists p = true → exists_symlink fs p = true) ∧
    (fs.symlink_metadata p = Except.ok ⟨FileType.symlink⟩ →
      fs.pathExists p = false → exists_symlink fs p = true) ∧
    (fs.symlink_metadata p = Except.ok ⟨FileType.dir⟩ →
      fs.pathExists p = true → exists_symlink fs p = true) := by
  refine ⟨fun h => ?_, fun h he => ?_, fun h he => ?_, fun h he => ?_,
    fun h he => ?_⟩
  · simp [exists_symlink, isOkAnd, h]
  all_goals simp [exists_symlink, isOkAnd, h, he, Metadata.is_symlink]

/-- Witness for C6: the five scenarios on the concrete filesystem `demoFs`. -/
theorem exists_symlink_scenarios_witness :
    exists_symlink demoFs 0 = false ∧ exists_symlink demoFs 1 = true ∧
    exists_symlink demoFs 2 = true ∧ exists_symlink demoFs 3 = true ∧
    exists_symlink demoFs 4 = true :=
  ⟨(exists_symlink_scenarios demoFs 0).1 rfl,
   (exists_symlink_scenarios demoFs 1).2.1 rfl rfl,
   (exists_symlink_scenarios demoFs 2).2.2.1 rfl rfl,
   (exists_symlink_scenarios demoFs 3).2.2.2.1 rfl rfl,
   (exists_symlink_scenarios demoFs 4).2.2.2.2 rfl rfl⟩

/-- C7: `exists_symlink` raises nothing: whenever the lstat-style metadata
query fails, whatever the failure cause (not found, permission denied, other
I/O error), the call returns the boolean `false`. -/
theorem exists_symlink_error_collapses_to_false (fs : Filesystem π) (p : π)
    (e : FsError) (h : fs.symlink_metadata p = Except.error e) :
    exists_symlink fs p = false := by
  simp [exists_symlink, isOkAnd, h]

/-- Witness for C7: the nonexistent path of `demoFs` yields `false`. -/
theorem exists_symlink_error_collapses_to_false_witness :
    exists_symlink demoFs 0 = false :=
  exists_symlink_error_collapses_to_false demoFs 0 FsError.notFound rfl

/-- C8: the combinators introduce no failure of their own — with a fallible
closure, an error result of the closure is returned unchanged by `bind`,
`hold` and `hold_ref`, and a successful closure makes the call return a
value. -/
theorem combinators_propagate_failure :
    (∀ (α β ε : Type) (v : α) (f : α → Except ε β) (e : ε),
      f v = Except.error e → bind v f = Except.error e) ∧
    (∀ (α β ε : Type) (v : α) (f : α → Except ε β) (b : β),
      f v = Except.ok b → bind v f = Except.ok b) ∧
    (∀ (α ε : Type) (v : α) (f : α → Except ε α) (e : ε),
      f v = Except.error e → holdE v f = Except.error e) ∧
    (∀ (α ε : Type) (v : α) (f : α → Except ε α) (v' : α),
      f v = Except.ok v' → holdE v f = Except.ok v') ∧
    (∀ (α ε : Type) (v : α) (f : α → Except ε Unit) (e : ε),
      f v = Except.error e → hold_refE v f = Except.error e) ∧
    (∀ (α ε : Type) (v : α) (f : α → Except ε Unit),
      f v = Except.ok () → hold_refE v f = Except.ok v) := by
  refine ⟨fun α β ε v f e h => h, fun α β ε v f b h => h,
    fun α ε v f e h => ?_, fun α ε v f v' h => ?_,
    fun α ε v f e h => ?_, fun α ε v f h => ?_⟩ <;>
    simp [holdE, hold_refE, h]

/-- Witness for C8: concrete failing and succeeding closures through each
combinator. -/
theorem combinators_propagate_failure_witness :
    bind 3 (fun _ : Nat => (Except.error 7 : Except Nat Nat)) =
      Except.error 7 ∧
    bind 3 (fun n : Nat => (Except.ok (n + 1) : Except Nat Nat)) =
      Except.ok 4 ∧
    holdE 3 (fun _ : Nat => (Except.error 8 : Except Nat Nat)) =
      Except.error 8 ∧
    holdE 3 (fun n : Nat => (Except.ok (n + 1) : Except Nat Nat)) =
      Except.ok 4 ∧
    hold_refE 3 (fun _ : Nat => (Except.error 9 : Except Nat Unit)) =
      Except.error 9 ∧
    hold_refE 3 (fun _ : Nat => (Except.ok () : Except Nat Unit)) =
      Except.ok 3 :=
  ⟨combinators_propagate_failure.1 Nat Nat Nat 3 _ 7 rfl,
   combinators_propagate_failure.2.1 Nat Nat Nat 3 _ 4 rfl,
   combinators_propagate_failure.2.2.1 Nat Nat 3 _ 8 rfl,
   combinators_propagate_failure.2.2.2.1 Nat Nat 3 _ 4 rfl,
   combinators_propagate_failure.2.2.2.2.1 Nat Nat 3 _ 9 rfl,
   combinators_propagate_failure.2.2.2.2.2 Nat Nat 3 _ rfl⟩

/-- C9: when the lstat-style query succeeds, the entry is not a symlink, and
the symlink-following existence check nevertheless returns `false`,
`exists_symlink` returns `false` even though an entry exists at the path. -/
theorem exists_symlink_nonsymlink_unreachable_false (fs : Filesystem π)
    (p : π) (m : Metadata) (h1 : fs.symlink_metadata p = Except.ok m)
    (h2 : m.is_symlink = false) (h3 : fs.pathExists p = false) :
    exists_symlink fs p = false := by
  simp [exists_symlink, isOkAnd, h1, h2, h3]

/-- Witness for C9: path 5 of `demoFs` is a regular file whose follow-up
existence query fails, and the check reports `false`. -/
theorem exists_symlink_nonsymlink_unreachable_false_witness :
    exists_symlink demoFs 5 = false :=
  exists_symlink_nonsymlink_unreachable_false demoFs 5 ⟨FileType.file⟩
    rfl rfl rfl

/-- C10: `bind` satisfies the identity and composition laws:
`bind(v, identity) = v` and `bind(bind(v, f), g) = bind(v, g ∘ f)`. -/
theorem bind_identity_and_composition :
    (∀ (α : Type) (v : α), bind v id = v) ∧
    (∀ (α β γ : Type) (v : α) (f : α → β) (g : β → γ),
      bind (bind v f) g = bind v (g ∘ f)) :=
  ⟨fun _ _ => rfl, fun _ _ _ _ _ _ => rfl⟩

end Mictils
